import Mathlib

/-
Verification of the CCML task-tracker core (app.py, train.py) against its
specification.  The Python code is shallowly embedded: timestamps are integer
minutes since an epoch, calendar dates are integer day indices (converting a
date to a timestamp places it at midnight, as pandas `to_datetime` does),
priorities are a three-valued enum, and the Streamlit session task list is an
explicit `List Task` threaded through the operations.
-/

namespace CCML

/-- Priority levels of a task, from the fixed selectbox options. -/
inductive Priority where
  | Low
  | Medium
  | High
deriving DecidableEq, Repr

/-- A task record, as built in `main` of app.py: `due_date` is a calendar
date (day index), `created_at` a timestamp (minutes since epoch). -/
structure Task where
  id : Nat
  description : String
  due_date : Int
  priority : Priority
  created_at : Int
  completed : Bool
deriving DecidableEq, Repr

/-- Embedding of the Add-Task branch of app.py (lines 174-187): if the
description is non-empty (Python string truthiness), append a task whose id
is the current list length plus one, `created_at` the current time and
`completed` false; otherwise leave the store unchanged.  The boolean result
records whether a task was created (success vs. warning message). -/
def add_task (description : String) (due_date : Int) (priority : Priority)
    (now : Int) (tasks : List Task) : List Task × Bool :=
  if description ≠ "" then
    (tasks ++ [{ id := tasks.length + 1, description := description,
                 due_date := due_date, priority := priority,
                 created_at := now, completed := false }], true)
  else
    (tasks, false)

/-- Embedding of the delete branch of app.py (line 243):
`st.session_state.tasks = [t for t in tasks if t["id"] != task["id"]]`. -/
def delete_task (i : Nat) (tasks : List Task) : List Task :=
  tasks.filter (fun t => t.id ≠ i)

/-- A user operation on the task store (add or delete, the operations the
id-uniqueness claim ranges over). -/
inductive Op where
  | add (description : String) (due_date : Int) (priority : Priority) (now : Int)
  | delete (id : Nat)
deriving DecidableEq, Repr

/-- Whether an operation is a delete. -/
def Op.isDelete : Op → Bool
  | .delete _ => true
  | _ => false

/-- Apply one operation to the task store. -/
def apply_op (tasks : List Task) : Op → List Task
  | .add d due p now => (add_task d due p now tasks).1
  | .delete i => delete_task i tasks

/-- Run a sequence of operations starting from the empty store. -/
def run_ops (ops : List Op) : List Task :=
  ops.foldl apply_op []

/-- Minutes in a day; a calendar date converts to the timestamp of its
midnight, as `pd.to_datetime` does on a date string. -/
def dateToTimestamp (d : Int) : Int := d * 1440

/-- Embedding of `df['days_to_due'] = (df['due_date'] - df['created_at']).dt.days`
(app.py line 52): the `days` component of a pandas Timedelta is floor
division of the difference by one day, also for negative differences. -/
def days_to_due (created_at due_date : Int) : Int :=
  (dateToTimestamp due_date - created_at).fdiv 1440

/-- Embedding of `analyze_daily_productivity` (app.py lines 93-118): filter
the tasks due today; return `none` (the `(None, None, None)` tri-state) when
there are none, otherwise the today-tasks, the completion rate as a rational
percentage, and the can-complete verdict.  `current_hour` is the hour
component of "now" (0-23); arithmetic is over ℤ/ℚ as Python ints/floats. -/
def analyze_daily_productivity (today : Int) (current_hour : Int)
    (tasks : List Task) : Option (List Task × ℚ × Bool) :=
  let today_tasks := tasks.filter (fun t => t.due_date = today)
  if today_tasks.isEmpty then
    none
  else
    let completed_today := (today_tasks.filter (fun t => t.completed)).length
    let total_today := today_tasks.length
    let completion_rate : ℚ :=
      if total_today > 0 then ((completed_today : ℚ) / total_today) * 100 else 0
    let avg_task_time : Int := 30
    let remaining_tasks : Int := (total_today : Int) - (completed_today : Int)
    let estimated_time_needed := remaining_tasks * avg_task_time
    let remaining_hours := 24 - current_hour
    let can_complete := decide (estimated_time_needed ≤ remaining_hours * 60)
    some (today_tasks, completion_rate, can_complete)

/-- The fixed priority sort key of `generate_timetable` (app.py line 129):
`{"High": 1, "Medium": 2, "Low": 3}`. -/
def priority_order : Priority → Nat
  | .High => 1
  | .Medium => 2
  | .Low => 3

/-- The sort key of `generate_timetable` line 130:
`lambda x: priority_order[x["priority"]]`. -/
def sortKey (t : Task) : Nat := priority_order t.priority

/-- The fixed per-priority slot durations of `generate_timetable`
(app.py lines 138-142), in minutes. -/
def time_allocation : Priority → Int
  | .High => 60
  | .Medium => 45
  | .Low => 30

/-- Stable insertion of an element into a list already sorted by the key:
the element goes before the first position whose key is not smaller, so
earlier elements stay before later elements with an equal key. -/
def insertByKey (key : α → Nat) (x : α) : List α → List α
  | [] => [x]
  | y :: ys => if key x ≤ key y then x :: y :: ys else y :: insertByKey key x ys

/-- Stable sort by a natural-number key; models Python `list.sort(key=...)`,
which is guaranteed stable. -/
def stableSortByKey (key : α → Nat) : List α → List α
  | [] => []
  | x :: xs => insertByKey key x (stableSortByKey key xs)

/-- A timetable slot as appended in `generate_timetable` (app.py lines
148-154); times are timestamps in minutes. -/
structure Slot where
  task : String
  priority : Priority
  start_time : Int
  end_time : Int
  duration : Int
deriving DecidableEq, Repr

/-- The slot-building loop of `generate_timetable` (app.py lines 133-156):
walk the sorted tasks, each slot starting at `current_time` and ending
`time_allocation` minutes later, which becomes the next `current_time`. -/
def buildSlots (current_time : Int) : List Task → List Slot
  | [] => []
  | t :: ts =>
    let task_time := time_allocation t.priority
    { task := t.description, priority := t.priority,
      start_time := current_time, end_time := current_time + task_time,
      duration := task_time } :: buildSlots (current_time + task_time) ts

/-- Embedding of `generate_timetable` (app.py lines 120-158): filter to
tasks due today and not completed, return `none` if there are none,
otherwise sort stably by `priority_order` and build contiguous slots
starting at `now`. -/
def generate_timetable (today : Int) (now : Int) (tasks : List Task) :
    Option (List Slot) :=
  let today_tasks := tasks.filter (fun t => t.due_date = today ∧ t.completed = false)
  if today_tasks.isEmpty then
    none
  else
    some (buildSlots now (stableSortByKey sortKey today_tasks))

/-- String label of a priority as stored in the task dict. -/
def priorityLabel : Priority → String
  | .Low => "Low"
  | .Medium => "Medium"
  | .High => "High"

/-- Insert a string into a sorted duplicate-free list, keeping it sorted and
duplicate-free. -/
def insertSortedNoDup (s : String) : List String → List String
  | [] => [s]
  | x :: xs =>
    if s = x then x :: xs
    else if s < x then s :: x :: xs
    else x :: insertSortedNoDup s xs

/-- The classes learned by `LabelEncoder.fit` (app.py lines 56-57): the
distinct labels present in the batch, in sorted order. -/
def encoderClasses (labels : List String) : List String :=
  labels.foldr insertSortedNoDup []

/-- `LabelEncoder.transform` of one label: its index in the sorted class
list. -/
def encodeLabel (classes : List String) (s : String) : Nat :=
  classes.indexOf s

/-- One row of the derived feature frame of `analyze_productivity`
(app.py lines 47-69). -/
structure FeatureRow where
  description : String
  priority : Priority
  days_to_due : Int
  is_completed : Nat
  priority_encoded : Nat
  completion_probability : ℚ
deriving DecidableEq, Repr

/-- Embedding of the data part of `analyze_productivity` (app.py lines
41-69): `none` when the task list is empty, otherwise one feature row per
task with `days_to_due`, `is_completed`, the batch-fit priority encoding and
the model's predicted completion probability.  The fitted
RandomForestClassifier is external (scikit-learn), so its per-row
probability is an oracle parameter `model`, a function of the feature
vector `[days_to_due, priority_encoded]` it is applied to. -/
def analyze_productivity (model : Int → Nat → ℚ) (tasks : List Task) :
    Option (List FeatureRow) :=
  if tasks.isEmpty then
    none
  else
    let classes := encoderClasses (tasks.map (fun t => priorityLabel t.priority))
    some (tasks.map (fun t =>
      let d := days_to_due t.created_at t.due_date
      let pe := encodeLabel classes (priorityLabel t.priority)
      { description := t.description, priority := t.priority,
        days_to_due := d, is_completed := if t.completed then 1 else 0,
        priority_encoded := pe, completion_probability := model d pe }))

/-- The high-risk filter of the dashboard (app.py line 305):
`df[df['completion_probability'] < 0.3]`. -/
def high_risk_tasks (rows : List FeatureRow) : List FeatureRow :=
  rows.filter (fun r => r.completion_probability < 3/10)

/-- The arguments of a scikit-learn `train_test_split` call that fix the
split contract: the test fraction, the random seed, and whether a
`stratify` target is passed (scikit-learn stratifies only when it is). -/
structure TrainTestSplitCall where
  test_size : ℚ
  random_state : Option Nat
  stratify_given : Bool
deriving DecidableEq, Repr

/-- Embedding of the split call of train.py line 29:
`train_test_split(X, y, test_size=0.2, random_state=42)` — the `stratify`
keyword is not passed, so it stays at its default `None`. -/
def train_split_call : TrainTestSplitCall :=
  { test_size := 1/5, random_state := some 42, stratify_given := false }

/-- The tasks `generate_timetable` schedules: due today and not completed
(app.py line 123). -/
def qualifying (today : Int) (tasks : List Task) : List Task :=
  tasks.filter (fun t => t.due_date = today ∧ t.completed = false)

/-- The slot list `generate_timetable` returns in its non-empty branch. -/
def timetableSlots (today : Int) (now : Int) (tasks : List Task) : List Slot :=
  buildSlots now (stableSortByKey sortKey (qualifying today tasks))

/-- State-passing form of `analyze_daily_productivity`: the Python function
receives the session task list by reference; every statement of its body
(app.py lines 95-118) only reads it — the comprehension at line 96 builds a
new list and no task field is assigned — so the store visible to the caller
afterwards is the unchanged input, returned here as the first component. -/
def analyze_daily_productivity_st (today : Int) (current_hour : Int)
    (tasks : List Task) : List Task × Option (List Task × ℚ × Bool) :=
  let today_tasks := tasks.filter (fun t => t.due_date = today)
  if today_tasks.isEmpty then
    (tasks, none)
  else
    let completed_today := (today_tasks.filter (fun t => t.completed)).length
    let total_today := today_tasks.length
    let completion_rate : ℚ :=
      if total_today > 0 then ((completed_today : ℚ) / total_today) * 100 else 0
    let avg_task_time : Int := 30
    let remaining_tasks : Int := (total_today : Int) - (completed_today : Int)
    let estimated_time_needed := remaining_tasks * avg_task_time
    let remaining_hours := 24 - current_hour
    let can_complete := decide (estimated_time_needed ≤ remaining_hours * 60)
    (tasks, some (today_tasks, completion_rate, can_complete))

/-- State-passing form of `generate_timetable`: the in-place `sort` at
app.py line 130 mutates `today_tasks`, the fresh list built by the
comprehension at line 123, not the caller's list, and no task field is
assigned, so the caller's store is returned unchanged. -/
def generate_timetable_st (today : Int) (now : Int) (tasks : List Task) :
    List Task × Option (List Slot) :=
  let today_tasks := tasks.filter (fun t => t.due_date = today ∧ t.completed = false)
  if today_tasks.isEmpty then
    (tasks, none)
  else
    let today_tasks := stableSortByKey sortKey today_tasks
    (tasks, some (buildSlots now today_tasks))

/-- State-passing form of `analyze_productivity`: app.py line 47 copies the
task dicts into a DataFrame and all subsequent assignments (lines 48-69)
write columns of that frame, never a task field, so the caller's store is
returned unchanged. -/
def analyze_productivity_st (model : Int → Nat → ℚ) (tasks : List Task) :
    List Task × Option (List FeatureRow) :=
  if tasks.isEmpty then
    (tasks, none)
  else
    let classes := encoderClasses (tasks.map (fun t => priorityLabel t.priority))
    (tasks, some (tasks.map (fun t =>
      let d := days_to_due t.created_at t.due_date
      let pe := encodeLabel classes (priorityLabel t.priority)
      { description := t.description, priority := t.priority,
        days_to_due := d, is_completed := if t.completed then 1 else 0,
        priority_encoded := pe, completion_probability := model d pe })))

/-! ### Helper lemmas -/

/-- In a delete-free run from a store whose ids are `1..count`, the ids stay
`1..count`. -/
theorem ids_range_of_no_delete (ops : List Op)
    (h : ∀ op ∈ ops, op.isDelete = false) :
    ∀ tasks : List Task,
      tasks.map (fun t => t.id) = List.range' 1 tasks.length →
      (ops.foldl apply_op tasks).map (fun t => t.id) =
        List.range' 1 (ops.foldl apply_op tasks).length := by
  induction ops with
  | nil => intro tasks ht; simpa using ht
  | cons op ops ih =>
    intro tasks ht
    simp only [List.foldl_cons]
    refine ih (fun o ho => h o (List.mem_cons_of_mem _ ho)) _ ?_
    cases op with
    | add d due p now =>
      by_cases hd : d = ""
      · simpa [apply_op, add_task, hd] using ht
      · simp [apply_op, add_task, hd, ht, List.range'_1_concat, Nat.add_comm]
    | delete i =>
      have := h (.delete i) (List.mem_cons_self _ _)
      simp [Op.isDelete] at this

/-! ### Claims about the task store -/

/-- C1 (counterexample): after the sequence add "a", add "b", delete id 1,
add "c", the store holds two tasks that both carry id 2 — ids are not
unique, and id 2 is handed out again while a task bearing it is present. -/
theorem task_ids_not_unique_after_delete :
    (run_ops [Op.add "a" 0 Priority.Low 0, Op.add "b" 0 Priority.Low 0,
              Op.delete 1, Op.add "c" 0 Priority.Low 0]).map (fun t => t.id)
      = [2, 2] ∧
    ¬ ((run_ops [Op.add "a" 0 Priority.Low 0, Op.add "b" 0 Priority.Low 0,
                 Op.delete 1, Op.add "c" 0 Priority.Low 0]).map
        (fun t => t.id)).Nodup := by
  decide

/-- C1 (amended): each created task's id is the current task count plus one,
and for every delete-free sequence of operations the stored ids are exactly
`1..count`, hence unique, at every instant; after a delete this uniqueness
can fail and a deleted id can be reassigned. -/
theorem task_ids_unique_without_delete :
    (∀ (d : String) (due : Int) (p : Priority) (now : Int) (tasks : List Task),
        d ≠ "" →
        (add_task d due p now tasks).1 =
          tasks ++ [{ id := tasks.length + 1, description := d, due_date := due,
                      priority := p, created_at := now, completed := false }]) ∧
    (∀ ops : List Op, (∀ op ∈ ops, op.isDelete = false) →
        (run_ops ops).map (fun t => t.id) = List.range' 1 (run_ops ops).length ∧
        ((run_ops ops).map (fun t => t.id)).Nodup) := by
  constructor
  · intro d due p now tasks hd
    simp [add_task, hd]
  · intro ops h
    have hmain := ids_range_of_no_delete ops h [] (by simp)
    refine ⟨hmain, ?_⟩
    rw [run_ops, hmain]
    exact List.nodup_range' _ _

/-- Witness for the amended C1 at a concrete delete-free run. -/
theorem task_ids_unique_without_delete_witness :
    ((add_task "a" 0 Priority.Low 0 []).1 =
      [] ++ [{ id := 1, description := "a", due_date := 0, priority := Priority.Low,
               created_at := 0, completed := false }]) ∧
    ((run_ops [Op.add "a" 0 Priority.Low 0, Op.add "b" 0 Priority.Low 0]).map
        (fun t => t.id) =
      List.range' 1 (run_ops [Op.add "a" 0 Priority.Low 0,
                              Op.add "b" 0 Priority.Low 0]).length ∧
     ((run_ops [Op.add "a" 0 Priority.Low 0, Op.add "b" 0 Priority.Low 0]).map
        (fun t => t.id)).Nodup) :=
  ⟨task_ids_unique_without_delete.1 "a" 0 Priority.Low 0 [] (by decide),
   task_ids_unique_without_delete.2
     [Op.add "a" 0 Priority.Low 0, Op.add "b" 0 Priority.Low 0] (by decide)⟩

/-- C8: adding with an empty description leaves the store unchanged and
reports failure; with a non-empty description it appends one task with
`completed = false` and `created_at` the current time. -/
theorem add_task_empty_rejected (d : String) (due : Int) (p : Priority)
    (now : Int) (tasks : List Task) :
    (d = "" → add_task d due p now tasks = (tasks, false)) ∧
    (d ≠ "" →
      add_task d due p now tasks =
        (tasks ++ [{ id := tasks.length + 1, description := d, due_date := due,
                     priority := p, created_at := now, completed := false }],
         true)) := by
  constructor
  · intro h; simp [add_task, h]
  · intro h; simp [add_task, h]

/-- Witness for C8: the empty description is rejected on the empty store,
and "buy milk" is appended with `completed = false`. -/
theorem add_task_empty_rejected_witness :
    (add_task "" 0 Priority.Low 0 [] = ([], false)) ∧
    (add_task "buy milk" 5 Priority.High 7 [] =
      ([] ++ [{ id := 1, description := "buy milk", due_date := 5,
                priority := Priority.High, created_at := 7, completed := false }],
       true)) :=
  ⟨(add_task_empty_rejected "" 0 Priority.Low 0 []).1 rfl,
   (add_task_empty_rejected "buy milk" 5 Priority.High 7 []).2 (by decide)⟩

/-- C10: deleting by id removes exactly the tasks carrying that id — all of
them, if several share it — and the remaining tasks keep their relative
order (the result is a sublist of the input); on a store with two tasks of
id 1 a single delete removes both. -/
theorem delete_task_removes_all_matching :
    (∀ (i : Nat) (tasks : List Task) (t : Task),
        t ∈ delete_task i tasks ↔ t ∈ tasks ∧ t.id ≠ i) ∧
    (∀ (i : Nat) (tasks : List Task), (delete_task i tasks).Sublist tasks) ∧
    delete_task 1
      [{ id := 1, description := "a", due_date := 0, priority := Priority.Low,
         created_at := 0, completed := false },
       { id := 1, description := "b", due_date := 0, priority := Priority.Low,
         created_at := 0, completed := false },
       { id := 2, description := "c", due_date := 0, priority := Priority.Low,
         created_at := 0, completed := false }] =
      [{ id := 2, description := "c", due_date := 0, priority := Priority.Low,
         created_at := 0, completed := false }] := by
  refine ⟨?_, ?_, by decide⟩
  · intro i tasks t
    simp [delete_task, List.mem_filter]
  · intro i tasks
    exact List.filter_sublist _

/-! ### Claims about the offline trainer -/

/-- C3 (counterexample): the `train_test_split` call of train.py does not
pass a `stratify` target, so the claim that the split is stratified with
test fraction 1/5 and seed 42 fails on the code. -/
theorem train_split_not_stratified :
    ¬ (train_split_call.stratify_given = true ∧
       train_split_call.test_size = 1/5 ∧
       train_split_call.random_state = some 42) := by
  decide

/-- C3 (amended): the offline trainer splits with test fraction 1/5 and
fixed seed 42, but as a plain shuffled split — no stratify target is
given. -/
theorem train_split_plain_80_20_seed42 :
    train_split_call.test_size = 1/5 ∧
    train_split_call.random_state = some 42 ∧
    train_split_call.stratify_given = false :=
  ⟨rfl, rfl, rfl⟩

/-! ### Claims about the derived features -/

/-- C2: `days_to_due` is the floor of the signed difference between the due
date's timestamp and the creation timestamp, in days — no clamping — and for
a task created at the start of day D, due date D+5 yields exactly 5 and due
date D-3 exactly -3. -/
theorem days_to_due_is_floor :
    (∀ created_at due_date : Int,
        days_to_due created_at due_date =
          ⌊((dateToTimestamp due_date - created_at : Int) : ℚ) / ((1440 : ℕ) : ℚ)⌋) ∧
    (∀ D : Int, days_to_due (dateToTimestamp D) (D + 5) = 5) ∧
    (∀ D : Int, days_to_due (dateToTimestamp D) (D - 3) = -3) := by
  refine ⟨?_, ?_, ?_⟩
  · intro c u
    rw [days_to_due, Int.fdiv_eq_ediv _ (by norm_num),
      Rat.floor_intCast_div_natCast]
    norm_num
  · intro D
    have h : dateToTimestamp (D + 5) - dateToTimestamp D = 5 * 1440 := by
      simp only [dateToTimestamp]; ring
    rw [days_to_due, h, Int.mul_fdiv_cancel _ (by norm_num)]
  · intro D
    have h : dateToTimestamp (D - 3) - dateToTimestamp D = (-3) * 1440 := by
      simp only [dateToTimestamp]; ring
    rw [days_to_due, h, Int.mul_fdiv_cancel _ (by norm_num)]

/-- Four feature rows carrying the predicted probabilities 0.1, 0.5, 0.29
and 0.31 of the spec's high-risk example. -/
def riskExampleRows : List FeatureRow :=
  [{ description := "t1", priority := Priority.Low, days_to_due := 0,
     is_completed := 0, priority_encoded := 0, completion_probability := 1/10 },
   { description := "t2", priority := Priority.Low, days_to_due := 0,
     is_completed := 0, priority_encoded := 0, completion_probability := 5/10 },
   { description := "t3", priority := Priority.Low, days_to_due := 0,
     is_completed := 0, priority_encoded := 0, completion_probability := 29/100 },
   { description := "t4", priority := Priority.Low, days_to_due := 0,
     is_completed := 0, priority_encoded := 0, completion_probability := 31/100 }]

/-- C7: the high-risk subset holds exactly the rows whose predicted
probability is strictly below 0.3; on probabilities [0.1, 0.5, 0.29, 0.31]
it keeps exactly the rows with 0.1 and 0.29. -/
theorem high_risk_strictly_below_threshold :
    (∀ (rows : List FeatureRow) (r : FeatureRow),
        r ∈ high_risk_tasks rows ↔
          r ∈ rows ∧ r.completion_probability < 3/10) ∧
    (high_risk_tasks riskExampleRows).map (fun r => r.description) =
      ["t1", "t3"] ∧
    (high_risk_tasks riskExampleRows).map (fun r => r.completion_probability) =
      [1/10, 29/100] := by
  refine ⟨?_, ?_, ?_⟩
  · intro rows r
    simp [high_risk_tasks, List.mem_filter]
  · norm_num [high_risk_tasks, riskExampleRows, List.filter]
  · norm_num [high_risk_tasks, riskExampleRows, List.filter]

/-! ### Claims about the daily capacity estimator -/

/-- Counting the completed tasks and the incomplete tasks of a list
partitions its length. -/
theorem length_sub_completed (l : List Task) :
    (l.length : Int) - ((l.filter (fun t => t.completed)).length : Int) =
      ((l.filter (fun t => t.completed = false)).length : Int) := by
  induction l with
  | nil => simp
  | cons x xs ih =>
    by_cases hx : x.completed <;>
      simp [List.filter_cons, hx] at ih ⊢ <;> omega

/-- Unfolding of `analyze_daily_productivity` when some task is due today. -/
theorem analyze_daily_productivity_eq_some (today current_hour : Int)
    (tasks : List Task)
    (h : (tasks.filter (fun t => t.due_date = today)).isEmpty = false) :
    analyze_daily_productivity today current_hour tasks =
      some (tasks.filter (fun t => t.due_date = today),
            (((tasks.filter (fun t => t.due_date = today)).filter
                (fun t => t.completed)).length : ℚ) /
              ((tasks.filter (fun t => t.due_date = today)).length : ℚ) * 100,
            decide ((((tasks.filter (fun t => t.due_date = today)).length : Int) -
                (((tasks.filter (fun t => t.due_date = today)).filter
                    (fun t => t.completed)).length : Int)) * 30 ≤
              (24 - current_hour) * 60)) := by
  have hne : tasks.filter (fun t => t.due_date = today) ≠ [] := by
    simpa [List.isEmpty_iff] using h
  have hpos : 0 < (tasks.filter (fun t => t.due_date = today)).length :=
    List.length_pos.mpr hne
  simp [analyze_daily_productivity, h, hpos]

/-- C5: the estimator returns the absent tri-state `none` exactly when no
task's due date equals today; otherwise it returns the today-tasks together
with a completion rate equal to the completed-today count over the
total-today count times 100, a rational value lying in [0, 100]. -/
theorem analyze_daily_rate_tri_state (today current_hour : Int)
    (tasks : List Task) :
    (analyze_daily_productivity today current_hour tasks = none ↔
      tasks.filter (fun t => t.due_date = today) = []) ∧
    (∀ (tt : List Task) (rate : ℚ) (can : Bool),
        analyze_daily_productivity today current_hour tasks =
          some (tt, rate, can) →
        tt = tasks.filter (fun t => t.due_date = today) ∧
        rate = ((tt.filter (fun t => t.completed)).length : ℚ) /
          (tt.length : ℚ) * 100 ∧
        0 ≤ rate ∧ rate ≤ 100) := by
  by_cases hE : (tasks.filter (fun t => t.due_date = today)).isEmpty
  · have h0 : analyze_daily_productivity today current_hour tasks = none := by
      simp [analyze_daily_productivity, hE]
    refine ⟨by simp [h0, List.isEmpty_iff.mp hE], ?_⟩
    intro tt rate can hsome
    rw [h0] at hsome
    cases hsome
  · have hB : (tasks.filter (fun t => t.due_date = today)).isEmpty = false := by
      simpa using hE
    have hne : tasks.filter (fun t => t.due_date = today) ≠ [] := by
      simpa [List.isEmpty_iff] using hE
    have hpos : 0 < (tasks.filter (fun t => t.due_date = today)).length :=
      List.length_pos.mpr hne
    have h0 := analyze_daily_productivity_eq_some today current_hour tasks hB
    constructor
    · rw [h0]; simp [hne]
    · intro tt rate can hsome
      rw [h0] at hsome
      have hparts := Option.some.inj hsome
      obtain ⟨h1, h2, h3⟩ : tasks.filter (fun t => t.due_date = today) = tt ∧
          (((tasks.filter (fun t => t.due_date = today)).filter
              (fun t => t.completed)).length : ℚ) /
            ((tasks.filter (fun t => t.due_date = today)).length : ℚ) * 100 =
            rate ∧
          decide ((((tasks.filter (fun t => t.due_date = today)).length : Int) -
              (((tasks.filter (fun t => t.due_date = today)).filter
                  (fun t => t.completed)).length : Int)) * 30 ≤
            (24 - current_hour) * 60) = can := by
        simpa [Prod.ext_iff] using hparts
      subst h1
      subst h2
      refine ⟨rfl, rfl, by positivity, ?_⟩
      set td := tasks.filter (fun t => t.due_date = today) with htd
      have hfl : ((td.filter (fun t => t.completed)).length : ℚ) ≤
          (td.length : ℚ) := by
        exact_mod_cast List.length_filter_le _ _
      have hq : (0 : ℚ) < (td.length : ℚ) := by exact_mod_cast hpos
      have hdiv : ((td.filter (fun t => t.completed)).length : ℚ) /
          (td.length : ℚ) ≤ 1 := (div_le_one hq).mpr hfl
      calc ((td.filter (fun t => t.completed)).length : ℚ) /
            (td.length : ℚ) * 100 ≤ 1 * 100 :=
              mul_le_mul_of_nonneg_right hdiv (by norm_num)
        _ = 100 := by norm_num

/-- C6: whenever the estimator returns a verdict, the verdict is `true`
exactly when thirty minutes per incomplete today-task fit into the minutes
left of the day, `(24 - current_hour) * 60`. -/
theorem analyze_daily_feasibility (today current_hour : Int)
    (tasks : List Task) (tt : List Task) (rate : ℚ) (can : Bool)
    (h : analyze_daily_productivity today current_hour tasks =
      some (tt, rate, can)) :
    can = true ↔
      ((tt.filter (fun t => t.completed = false)).length : Int) * 30 ≤
        (24 - current_hour) * 60 := by
  by_cases hE : (tasks.filter (fun t => t.due_date = today)).isEmpty
  · have h0 : analyze_daily_productivity today current_hour tasks = none := by
      simp [analyze_daily_productivity, hE]
    rw [h0] at h
    cases h
  · have hB : (tasks.filter (fun t => t.due_date = today)).isEmpty = false := by
      simpa using hE
    rw [analyze_daily_productivity_eq_some today current_hour tasks hB] at h
    have hparts := Option.some.inj h
    obtain ⟨h1, h2, h3⟩ : tasks.filter (fun t => t.due_date = today) = tt ∧
        (((tasks.filter (fun t => t.due_date = today)).filter
            (fun t => t.completed)).length : ℚ) /
          ((tasks.filter (fun t => t.due_date = today)).length : ℚ) * 100 =
          rate ∧
        decide ((((tasks.filter (fun t => t.due_date = today)).length : Int) -
            (((tasks.filter (fun t => t.due_date = today)).filter
                (fun t => t.completed)).length : Int)) * 30 ≤
          (24 - current_hour) * 60) = can := by
      simpa [Prod.ext_iff] using hparts
    subst h1
    subst h3
    rw [decide_eq_true_iff, length_sub_completed]

/-! ### Claims about the timetable generator -/

/-- Stable insertion before a list all of whose keys are at least the new
element's key puts the element in front. -/
theorem insertByKey_le_all {α : Type} (key : α → Nat) (x : α) (l : List α)
    (h : ∀ y ∈ l, key x ≤ key y) : insertByKey key x l = x :: l := by
  cases l with
  | nil => rfl
  | cons y ys => simp [insertByKey, h y (List.mem_cons_self _ _)]

/-- Stable insertion walks past a prefix all of whose keys are strictly
smaller than the new element's key. -/
theorem insertByKey_append_lt {α : Type} (key : α → Nat) (x : α)
    (as bs : List α) (h : ∀ y ∈ as, key y < key x) :
    insertByKey key x (as ++ bs) = as ++ insertByKey key x bs := by
  induction as with
  | nil => rfl
  | cons a as ih =>
    have ha : ¬ key x ≤ key a := not_le.mpr (h a (List.mem_cons_self _ _))
    simp [insertByKey, ha, ih (fun y hy => h y (List.mem_cons_of_mem _ hy))]

/-- Stable sort by the three-valued priority key separates the list into
its High, Medium and Low sublists, each in original relative order. -/
theorem stableSort_priority_filters (l : List Task) :
    stableSortByKey sortKey l =
      l.filter (fun t => t.priority = Priority.High) ++
        l.filter (fun t => t.priority = Priority.Medium) ++
        l.filter (fun t => t.priority = Priority.Low) := by
  induction l with
  | nil => rfl
  | cons x xs ih =>
    have hH : ∀ y ∈ xs.filter (fun t => t.priority = Priority.High),
        sortKey y = 1 := by
      intro y hy
      have h2 := (List.mem_filter.mp hy).2
      simp only [decide_eq_true_eq] at h2
      simp [sortKey, h2, priority_order]
    have hM : ∀ y ∈ xs.filter (fun t => t.priority = Priority.Medium),
        sortKey y = 2 := by
      intro y hy
      have h2 := (List.mem_filter.mp hy).2
      simp only [decide_eq_true_eq] at h2
      simp [sortKey, h2, priority_order]
    have hL : ∀ y ∈ xs.filter (fun t => t.priority = Priority.Low),
        sortKey y = 3 := by
      intro y hy
      have h2 := (List.mem_filter.mp hy).2
      simp only [decide_eq_true_eq] at h2
      simp [sortKey, h2, priority_order]
    rw [stableSortByKey, ih]
    cases hx : x.priority
    case Low =>
      have hkey : sortKey x = 3 := by simp [sortKey, hx, priority_order]
      rw [insertByKey_append_lt _ _ _ _ ?side, insertByKey_le_all _ _ _ ?front]
      case side =>
        intro y hy
        rcases List.mem_append.mp hy with hy | hy
        · rw [hH y hy, hkey]; omega
        · rw [hM y hy, hkey]; omega
      case front =>
        intro y hy
        rw [hL y hy, hkey]
      simp [List.filter_cons, hx]
    case Medium =>
      have hkey : sortKey x = 2 := by simp [sortKey, hx, priority_order]
      rw [List.append_assoc,
        insertByKey_append_lt _ _ _ _ ?side, insertByKey_le_all _ _ _ ?front]
      case side =>
        intro y hy
        rw [hH y hy, hkey]; omega
      case front =>
        intro y hy
        rcases List.mem_append.mp hy with hy | hy
        · rw [hM y hy, hkey]
        · rw [hL y hy, hkey]; omega
      simp [List.filter_cons, hx]
    case High =>
      have hkey : sortKey x = 1 := by simp [sortKey, hx, priority_order]
      rw [insertByKey_le_all _ _ _ ?front]
      case front =>
        intro y hy
        rcases List.mem_append.mp hy with hy | hy
        · rcases List.mem_append.mp hy with hy | hy
          · rw [hH y hy, hkey]
          · rw [hM y hy, hkey]; omega
        · rw [hL y hy, hkey]; omega
      simp [List.filter_cons, hx]

/-- Stable insertion grows the length by one. -/
theorem insertByKey_length {α : Type} (key : α → Nat) (x : α) (l : List α) :
    (insertByKey key x l).length = l.length + 1 := by
  induction l with
  | nil => rfl
  | cons y ys ih =>
    by_cases h : key x ≤ key y <;> simp [insertByKey, h, ih]

/-- Stable sort preserves the length. -/
theorem stableSortByKey_length {α : Type} (key : α → Nat) (l : List α) :
    (stableSortByKey key l).length = l.length := by
  induction l with
  | nil => rfl
  | cons x xs ih => simp [stableSortByKey, insertByKey_length, ih]

/-- The slots carry the scheduled tasks' descriptions and priorities in
order. -/
theorem buildSlots_map_task (now : Int) (ts : List Task) :
    (buildSlots now ts).map (fun s => (s.task, s.priority)) =
      ts.map (fun t => (t.description, t.priority)) := by
  induction ts generalizing now with
  | nil => rfl
  | cons t ts ih => simp [buildSlots, ih]

/-- Every slot's duration comes from its priority and its end time is its
start time plus its duration. -/
theorem buildSlots_duration (now : Int) (ts : List Task) :
    ∀ s ∈ buildSlots now ts,
      s.duration = time_allocation s.priority ∧
      s.end_time = s.start_time + s.duration := by
  induction ts generalizing now with
  | nil => intro s hs; cases hs
  | cons t ts ih =>
    intro s hs
    rcases List.mem_cons.mp hs with rfl | hs
    · exact ⟨rfl, rfl⟩
    · exact ih _ s hs

/-- The first slot starts at the given time. -/
theorem buildSlots_head_start (now : Int) (t : Task) (ts : List Task) :
    (buildSlots now (t :: ts)).head?.map (fun s => s.start_time) = some now := by
  rfl

/-- Consecutive slots are contiguous: each starts where the previous one
ends. -/
theorem buildSlots_chain (now : Int) (ts : List Task) :
    List.Chain' (fun a b => b.start_time = a.end_time) (buildSlots now ts) := by
  induction ts generalizing now with
  | nil => simp [buildSlots]
  | cons t ts ih =>
    rw [buildSlots, List.chain'_cons']
    refine ⟨?_, ih _⟩
    intro b hb
    cases ts with
    | nil => simp [buildSlots] at hb
    | cons u us =>
      simp only [buildSlots, List.head?_cons, Option.mem_def,
        Option.some.injEq] at hb
      rw [← hb]

/-- C4: when some task is due today and not completed, `generate_timetable`
returns the slot list built from the qualifying tasks sorted stably by
priority — exactly the High ones in original order, then the Medium ones,
then the Low ones — where the durations are the fixed 60/45/30 minutes for
High/Medium/Low, the first slot starts at "now", and every later slot
starts at the previous slot's end. -/
theorem generate_timetable_spec (today now : Int) (tasks : List Task)
    (h : qualifying today tasks ≠ []) :
    generate_timetable today now tasks = some (timetableSlots today now tasks) ∧
    (timetableSlots today now tasks).map (fun s => (s.task, s.priority)) =
      ((qualifying today tasks).filter (fun t => t.priority = Priority.High) ++
        (qualifying today tasks).filter (fun t => t.priority = Priority.Medium) ++
        (qualifying today tasks).filter (fun t => t.priority = Priority.Low)).map
        (fun t => (t.description, t.priority)) ∧
    time_allocation Priority.High = 60 ∧
    time_allocation Priority.Medium = 45 ∧
    time_allocation Priority.Low = 30 ∧
    (∀ s ∈ timetableSlots today now tasks,
        s.duration = time_allocation s.priority ∧
        s.end_time = s.start_time + s.duration) ∧
    (timetableSlots today now tasks).head?.map (fun s => s.start_time) =
      some now ∧
    List.Chain' (fun a b => b.start_time = a.end_time)
      (timetableSlots today now tasks) := by
  have hB : (tasks.filter
      (fun t => t.due_date = today ∧ t.completed = false)).isEmpty = false :=
    List.isEmpty_eq_false.mpr h
  have hsne : stableSortByKey sortKey (qualifying today tasks) ≠ [] := by
    intro hnil
    apply h
    have hlen := stableSortByKey_length sortKey (qualifying today tasks)
    rw [hnil] at hlen
    exact List.length_eq_zero.mp hlen.symm
  obtain ⟨t, ts, hts⟩ := List.exists_cons_of_ne_nil hsne
  refine ⟨?_, ?_, rfl, rfl, rfl, ?_, ?_, ?_⟩
  · simp only [generate_timetable, timetableSlots, qualifying]
    rw [hB]
    simp
  · rw [timetableSlots, buildSlots_map_task, stableSort_priority_filters]
  · exact buildSlots_duration now _
  · rw [timetableSlots, hts, buildSlots_head_start]
  · exact buildSlots_chain now _

/-- Witness for C4 at the spec's example: three tasks due today, entered as
High, Low, Medium, scheduled from time 540 in the order High, Medium, Low
with durations 60, 45 and 30 minutes and contiguous slots. -/
theorem generate_timetable_spec_witness :
    (qualifying 0
      [{ id := 1, description := "h", due_date := 0, priority := Priority.High,
         created_at := 0, completed := false },
       { id := 2, description := "l", due_date := 0, priority := Priority.Low,
         created_at := 0, completed := false },
       { id := 3, description := "m", due_date := 0, priority := Priority.Medium,
         created_at := 0, completed := false }] ≠ []) ∧
    (generate_timetable 0 540
        [{ id := 1, description := "h", due_date := 0, priority := Priority.High,
           created_at := 0, completed := false },
         { id := 2, description := "l", due_date := 0, priority := Priority.Low,
           created_at := 0, completed := false },
         { id := 3, description := "m", due_date := 0, priority := Priority.Medium,
           created_at := 0, completed := false }] =
      some (timetableSlots 0 540
        [{ id := 1, description := "h", due_date := 0, priority := Priority.High,
           created_at := 0, completed := false },
         { id := 2, description := "l", due_date := 0, priority := Priority.Low,
           created_at := 0, completed := false },
         { id := 3, description := "m", due_date := 0, priority := Priority.Medium,
           created_at := 0, completed := false }]) ∧
      (timetableSlots 0 540
        [{ id := 1, description := "h", due_date := 0, priority := Priority.High,
           created_at := 0, completed := false },
         { id := 2, description := "l", due_date := 0, priority := Priority.Low,
           created_at := 0, completed := false },
         { id := 3, description := "m", due_date := 0, priority := Priority.Medium,
           created_at := 0, completed := false }]).map (fun s => (s.task, s.priority)) =
        (([{ id := 1, description := "h", due_date := 0, priority := Priority.High,
             created_at := 0, completed := false },
           { id := 2, description := "l", due_date := 0, priority := Priority.Low,
             created_at := 0, completed := false },
           { id := 3, description := "m", due_date := 0, priority := Priority.Medium,
             created_at := 0, completed := false }] : List Task).filter
              (fun t => t.priority = Priority.High) ++
          ([{ id := 1, description := "h", due_date := 0, priority := Priority.High,
              created_at := 0, completed := false },
            { id := 2, description := "l", due_date := 0, priority := Priority.Low,
              created_at := 0, completed := false },
            { id := 3, description := "m", due_date := 0, priority := Priority.Medium,
              created_at := 0, completed := false }] : List Task).filter
              (fun t => t.priority = Priority.Medium) ++
          ([{ id := 1, description := "h", due_date := 0, priority := Priority.High,
              created_at := 0, completed := false },
            { id := 2, description := "l", due_date := 0, priority := Priority.Low,
              created_at := 0, completed := false },
            { id := 3, description := "m", due_date := 0, priority := Priority.Medium,
              created_at := 0, completed := false }] : List Task).filter
              (fun t => t.priority = Priority.Low)).map
          (fun t => (t.description, t.priority)) ∧
      time_allocation Priority.High = 60 ∧
      time_allocation Priority.Medium = 45 ∧
      time_allocation Priority.Low = 30 ∧
      (∀ s ∈ timetableSlots 0 540
          [{ id := 1, description := "h", due_date := 0, priority := Priority.High,
             created_at := 0, completed := false },
           { id := 2, description := "l", due_date := 0, priority := Priority.Low,
             created_at := 0, completed := false },
           { id := 3, description := "m", due_date := 0, priority := Priority.Medium,
             created_at := 0, completed := false }],
          s.duration = time_allocation s.priority ∧
          s.end_time = s.start_time + s.duration) ∧
      (timetableSlots 0 540
        [{ id := 1, description := "h", due_date := 0, priority := Priority.High,
           created_at := 0, completed := false },
         { id := 2, description := "l", due_date := 0, priority := Priority.Low,
           created_at := 0, completed := false },
         { id := 3, description := "m", due_date := 0, priority := Priority.Medium,
           created_at := 0, completed := false }]).head?.map
          (fun s => s.start_time) = some 540 ∧
      List.Chain' (fun a b => b.start_time = a.end_time)
        (timetableSlots 0 540
          [{ id := 1, description := "h", due_date := 0, priority := Priority.High,
             created_at := 0, completed := false },
           { id := 2, description := "l", due_date := 0, priority := Priority.Low,
             created_at := 0, completed := false },
           { id := 3, description := "m", due_date := 0, priority := Priority.Medium,
             created_at := 0, completed := false }])) :=
  ⟨by decide,
   generate_timetable_spec 0 540
     [{ id := 1, description := "h", due_date := 0, priority := Priority.High,
        created_at := 0, completed := false },
      { id := 2, description := "l", due_date := 0, priority := Priority.Low,
        created_at := 0, completed := false },
      { id := 3, description := "m", due_date := 0, priority := Priority.Medium,
        created_at := 0, completed := false }] (by decide)⟩

/-- A concrete store for the daily-analysis witnesses: two tasks due on
day 0, one completed, one not. -/
def wTasks : List Task :=
  [{ id := 1, description := "a", due_date := 0, priority := Priority.Low,
     created_at := 0, completed := true },
   { id := 2, description := "b", due_date := 0, priority := Priority.High,
     created_at := 0, completed := false }]

/-- On `wTasks` at hour 12 the daily analysis yields both tasks, a fifty
percent completion rate and a positive verdict. -/
theorem wTasks_analysis :
    analyze_daily_productivity 0 12 wTasks = some (wTasks, 50, true) := by
  rw [analyze_daily_productivity_eq_some 0 12 wTasks (by decide)]
  norm_num [wTasks, List.filter]

/-- Witness for C5 on `wTasks`: the returned list is the today filter and
the rate 50 equals 1/2 times 100 and lies in [0, 100]. -/
theorem analyze_daily_rate_tri_state_witness :
    wTasks = wTasks.filter (fun t => t.due_date = 0) ∧
    (50 : ℚ) = ((wTasks.filter (fun t => t.completed)).length : ℚ) /
      (wTasks.length : ℚ) * 100 ∧
    (0 : ℚ) ≤ 50 ∧ (50 : ℚ) ≤ 100 :=
  (analyze_daily_rate_tri_state 0 12 wTasks).2 wTasks 50 true wTasks_analysis

/-- Witness for C6 on `wTasks`: the verdict is positive exactly because one
incomplete task needs 30 minutes and 12 hours remain. -/
theorem analyze_daily_feasibility_witness :
    (true = true) ↔
      ((wTasks.filter (fun t => t.completed = false)).length : Int) * 30 ≤
        (24 - 12) * 60 :=
  analyze_daily_feasibility 0 12 wTasks wTasks 50 true wTasks_analysis

/-! ### Frame effect of the analysis operations -/

/-- C9: the three analysis operations return the task store unchanged — in
their state-passing embeddings the store component of the result is the
input list, with the same length, order and fields — and their computed
results agree with the pure functions. -/
theorem analysis_preserves_store (model : Int → Nat → ℚ)
    (today current_hour now : Int) (tasks : List Task) :
    (analyze_productivity_st model tasks).1 = tasks ∧
    (analyze_daily_productivity_st today current_hour tasks).1 = tasks ∧
    (generate_timetable_st today now tasks).1 = tasks ∧
    (analyze_productivity_st model tasks).2 = analyze_productivity model tasks ∧
    (analyze_daily_productivity_st today current_hour tasks).2 =
      analyze_daily_productivity today current_hour tasks ∧
    (generate_timetable_st today now tasks).2 =
      generate_timetable today now tasks := by
  refine ⟨?_, ?_, ?_, ?_, ?_, ?_⟩
  · unfold analyze_productivity_st
    by_cases hc : tasks.isEmpty <;> simp only [hc] <;> rfl
  · unfold analyze_daily_productivity_st
    by_cases hc : (tasks.filter (fun t => t.due_date = today)).isEmpty <;>
      simp only [hc] <;> rfl
  · unfold generate_timetable_st
    by_cases hc : (tasks.filter
        (fun t => t.due_date = today ∧ t.completed = false)).isEmpty <;>
      simp only [hc] <;> rfl
  · unfold analyze_productivity_st analyze_productivity
    by_cases hc : tasks.isEmpty <;> simp only [hc] <;> rfl
  · unfold analyze_daily_productivity_st analyze_daily_productivity
    by_cases hc : (tasks.filter (fun t => t.due_date = today)).isEmpty <;>
      simp only [hc] <;> rfl
  · unfold generate_timetable_st generate_timetable
    by_cases hc : (tasks.filter
        (fun t => t.due_date = today ∧ t.completed = false)).isEmpty <;>
      simp only [hc] <;> rfl

end CCML
